import Mathlib

/-
Shallow embedding of the DSP utility core of this repository:
  * src/mopo/src/utils.h        (namespace mopo::utils)
  * src/src/editor_components/text_selector.cpp (TextSelector::mouseEvent)

The C++ `mopo_float` samples are embedded as exact rationals (ℚ) for the
order-theoretic and rational-function primitives (every finite double is a
rational), and as real numbers (ℝ) for the conversions that call the libm
transcendentals pow/log.  Buffers (pointer + length) are embedded as a
memory function `Nat → ℚ` together with an explicit length.
-/

/-- EPSILON from utils.h line 35: `const mopo_float EPSILON = 1e-16;`. -/
def EPSILON : ℚ := 1e-16

/-- Scalar backend of clamp, utils.h lines 100-102:
`return std::min(max, std::max(value, min));`. -/
def clampScalar (value lo hi : ℚ) : ℚ := min hi (max value lo)

/-- SSE2 backend of clamp, utils.h lines 67-72:
`_mm_min_sd(_mm_max_sd(value, min), max)` on finite (non-NaN) doubles. -/
def clampSSE2 (value lo hi : ℚ) : ℚ := min (max value lo) hi

/-- iclamp, utils.h lines 113-115:
`return value > max ? max : (value < min ? min : value);`
(int arithmetic, result converted to mopo_float). -/
def iclamp (value lo hi : Int) : ℚ :=
  if hi < value then (hi : ℚ) else if value < lo then (lo : ℚ) else (value : ℚ)

/-- closeToZero, utils.h lines 117-119:
`return value <= EPSILON && value >= -EPSILON;`. -/
def closeToZero (value : ℚ) : Bool :=
  decide (value ≤ EPSILON) && decide (value ≥ -EPSILON)

/-- isSilent, utils.h lines 194-200: loops i = 0..length-1 over buffer[i],
returning false at the first sample that is not closeToZero. -/
def isSilent (buffer : Nat → ℚ) (length : Nat) : Bool :=
  (List.range length).all fun i => closeToZero (buffer i)

/-- quickertanh, utils.h lines 157-160:
`square = value * value; return value / (1.0 + square / (3.0 + square / 5.0));`. -/
def quickertanh (value : ℚ) : ℚ :=
  value / (1 + value * value / (3 + value * value / 5))

/-- The numerator local `num` of quicktanh, utils.h lines 166-167. -/
def qtNum (value : ℚ) : ℚ :=
  value * (2.45550750702956 + 2.45550750702956 * |value| +
    value * value * (0.893229853513558 + 0.821226666969744 * |value|))

/-- The denominator local `den` of quicktanh, utils.h lines 168-169. -/
def qtDen (value : ℚ) : ℚ :=
  2.44506634652299 + (2.44506634652299 + value * value) *
    abs (value + 0.814642734961073 * value * abs value)

/-- quicktanh, utils.h lines 162-171: `return num / den;`. -/
def quicktanh (value : ℚ) : ℚ := qtNum value / qtDen value

/-- quickerSin, utils.h lines 174-176 (phase in [-0.5, 0.5]):
`return phase * (8.0 - 16.0 * std::abs(phase));`. -/
def quickerSin (phase : ℚ) : ℚ := phase * (8 - 16 * |phase|)

/-- quickSin, utils.h lines 178-181:
`approx = quickerSin(phase); return approx * (0.776 + 0.224 * std::abs(approx));`. -/
def quickSin (phase : ℚ) : ℚ :=
  quickerSin phase * (0.776 + 0.224 * |quickerSin phase|)

/-- C++ float-to-int conversion: truncation toward zero, used by
`int index = <double expression>;` in TextSelector::mouseEvent. -/
def cppTrunc (q : ℚ) : Int := if 0 ≤ q then ⌊q⌋ else ⌈q⌉

/-- TextSelector::mouseEvent, text_selector.cpp lines 53-57: the index the
widget passes to setValue, `int index = x * (getMaximum() + 1) / getWidth();`,
parameterised by the pointer x coordinate, the slider maximum and the widget
width (JUCE getters are external inputs here).  The slider minimum is not
read by this code. -/
def mouseEventIndex (x maximum width : ℚ) : Int :=
  cppTrunc (x * (maximum + 1) / width)

/-- Modelled from the spec: the boundary-contract formula the spec states for
the parameter widget, `index = pointerX * (maximum - minimum + 1) / widgetWidth`,
written down for comparison with `mouseEventIndex` (refinement target only;
the source computes `mouseEventIndex`). -/
def specIndex (x minimum maximum width : ℚ) : Int :=
  cppTrunc (x * (maximum - minimum + 1) / width)

/-
Real-valued unit conversions from utils.h.  The libm transcendentals pow and
log are embedded as Real.rpow and Real.log, so the identities below hold
exactly over ℝ (the float versions hold up to rounding).
-/

/-- MIDI_0_FREQUENCY from utils.h line 37. -/
def MIDI_0_FREQUENCY : ℝ := 8.1757989156

/-- NOTES_PER_OCTAVE from utils.h line 38 (an int constant used in real
arithmetic). -/
def NOTES_PER_OCTAVE : ℝ := 12

/-- CENTS_PER_NOTE from utils.h line 39. -/
def CENTS_PER_NOTE : ℝ := 100

/-- CENTS_PER_OCTAVE from utils.h line 40: NOTES_PER_OCTAVE * CENTS_PER_NOTE. -/
def CENTS_PER_OCTAVE : ℝ := NOTES_PER_OCTAVE * CENTS_PER_NOTE

/-- MIN_Q_POW from utils.h line 43. -/
def MIN_Q_POW : ℝ := -1

/-- MAX_Q_POW from utils.h line 42. -/
def MAX_Q_POW : ℝ := 4

/-- centsToRatio, utils.h lines 129-131: `pow(2.0, cents / CENTS_PER_OCTAVE)`. -/
noncomputable def centsToRatio (cents : ℝ) : ℝ :=
  (2 : ℝ) ^ (cents / CENTS_PER_OCTAVE)

/-- midiCentsToFrequency, utils.h lines 133-135:
`MIDI_0_FREQUENCY * centsToRatio(cents)`. -/
noncomputable def midiCentsToFrequency (cents : ℝ) : ℝ :=
  MIDI_0_FREQUENCY * centsToRatio cents

/-- midiNoteToFrequency, utils.h lines 137-139:
`midiCentsToFrequency(note * CENTS_PER_NOTE)`. -/
noncomputable def midiNoteToFrequency (note : ℝ) : ℝ :=
  midiCentsToFrequency (note * CENTS_PER_NOTE)

/-- frequencyToMidiNote, utils.h lines 141-143:
`NOTES_PER_OCTAVE * log(frequency / MIDI_0_FREQUENCY) / log(2.0)`. -/
noncomputable def frequencyToMidiNote (frequency : ℝ) : ℝ :=
  NOTES_PER_OCTAVE * Real.log (frequency / MIDI_0_FREQUENCY) / Real.log 2

/-- Modelled from the spec: the INTERPOLATE macro lives in common.h, which is
not among the repository files here; the spec describes it as linear
interpolation, `lerp(start, end, t) = start + (end - start) * t`. -/
def INTERPOLATE (a b t : ℝ) : ℝ := a + (b - a) * t

/-- magnitudeToQ, utils.h lines 149-151:
`pow(2.0, INTERPOLATE(MIN_Q_POW, MAX_Q_POW, magnitude))`. -/
noncomputable def magnitudeToQ (magnitude : ℝ) : ℝ :=
  (2 : ℝ) ^ INTERPOLATE MIN_Q_POW MAX_Q_POW magnitude

/-- qToMagnitude, utils.h lines 153-155:
`(pow(0.5, q) - MIN_Q_POW) / (MAX_Q_POW - MIN_Q_POW)`. -/
noncomputable def qToMagnitude (q : ℝ) : ℝ :=
  ((0.5 : ℝ) ^ q - MIN_Q_POW) / (MAX_Q_POW - MIN_Q_POW)

/-
Helper lemmas about the rational tanh approximations.
-/

/-- The continued fraction of quickertanh has denominator at least 1 and at
most 6, so quickertanh grows at least like x / 6 on nonnegative inputs. -/
lemma quickertanh_lower (x : ℚ) (hx : 0 ≤ x) : x / 6 ≤ quickertanh x := by
  unfold quickertanh
  have hpos : (0:ℚ) < 3 + x * x / 5 := by nlinarith [mul_self_nonneg x]
  have ht0 : (0:ℚ) ≤ x * x / (3 + x * x / 5) := div_nonneg (mul_self_nonneg x) hpos.le
  have ht : x * x / (3 + x * x / 5) ≤ 5 := by
    rw [div_le_iff₀ hpos]
    nlinarith
  have hD : (0:ℚ) < 1 + x * x / (3 + x * x / 5) := by linarith
  rw [div_le_div_iff₀ (by norm_num) hD]
  have hm := mul_le_mul_of_nonneg_left (add_le_add_left ht 1) hx
  linarith [hm]

/-- quickertanh is an odd function: its defining expression is x over an even
rational expression. -/
lemma quickertanh_odd (x : ℚ) : quickertanh (-x) = -quickertanh x := by
  simp [quickertanh, neg_mul_neg, neg_div]

/-- The quicktanh numerator is odd. -/
lemma qtNum_neg (x : ℚ) : qtNum (-x) = -qtNum x := by
  unfold qtNum
  simp only [abs_neg]
  ring

/-- The quicktanh denominator is even. -/
lemma qtDen_neg (x : ℚ) : qtDen (-x) = qtDen x := by
  unfold qtDen
  simp only [abs_neg]
  have h : -x + 0.814642734961073 * -x * |x| = -(x + 0.814642734961073 * x * |x|) := by
    ring
  rw [h, abs_neg]
  ring

/-- quicktanh is an odd function. -/
lemma quicktanh_odd (x : ℚ) : quicktanh (-x) = -quicktanh x := by
  unfold quicktanh
  rw [qtNum_neg, qtDen_neg, neg_div]

/-- The quicktanh denominator is strictly positive everywhere. -/
lemma qtDen_pos (x : ℚ) : 0 < qtDen x := by
  unfold qtDen
  have h1 : (0:ℚ) ≤ 2.44506634652299 + x * x := by nlinarith [mul_self_nonneg x]
  have h2 : (0:ℚ) ≤ (2.44506634652299 + x * x) *
      abs (x + 0.814642734961073 * x * abs x) := mul_nonneg h1 (abs_nonneg _)
  linarith

/-- The quicktanh numerator is nonnegative on nonnegative inputs. -/
lemma qtNum_nonneg (x : ℚ) (hx : 0 ≤ x) : 0 ≤ qtNum x := by
  unfold qtNum
  rw [abs_of_nonneg hx]
  nlinarith [hx, mul_nonneg hx hx, mul_nonneg (mul_nonneg hx hx) hx,
    mul_nonneg (mul_nonneg (mul_nonneg hx hx) hx) hx]

/-- On nonnegative inputs quicktanh is at most 2: every coefficient of
2 * den - num is nonnegative once the absolute values are resolved. -/
lemma quicktanh_le_two_of_nonneg (x : ℚ) (hx : 0 ≤ x) : quicktanh x ≤ 2 := by
  unfold quicktanh
  rw [div_le_iff₀ (qtDen_pos x)]
  unfold qtNum qtDen
  rw [abs_of_nonneg hx]
  rw [abs_of_nonneg (show (0:ℚ) ≤ x + 0.814642734961073 * x * x by
    nlinarith [hx, mul_nonneg hx hx])]
  nlinarith [hx, mul_nonneg hx hx, mul_nonneg (mul_nonneg hx hx) hx,
    mul_nonneg (mul_nonneg (mul_nonneg hx hx) hx) hx]

/-- quicktanh is globally bounded in magnitude by 2. -/
lemma quicktanh_abs_le_two (x : ℚ) : |quicktanh x| ≤ 2 := by
  have key : ∀ y : ℚ, 0 ≤ y → |quicktanh y| ≤ 2 := by
    intro y hy
    have h0 : 0 ≤ quicktanh y := by
      unfold quicktanh
      exact div_nonneg (qtNum_nonneg y hy) (qtDen_pos y).le
    rw [abs_of_nonneg h0]
    exact quicktanh_le_two_of_nonneg y hy
  rcases le_total 0 x with hx | hx
  · exact key x hx
  · have h := key (-x) (by linarith)
    rwa [quicktanh_odd, abs_neg] at h

/-
The claim theorems.
-/

/-- C1: the spec claims qToMagnitude and magnitudeToQ are inverse maps, but
evaluating the code at magnitude 0.2 gives magnitudeToQ(0.2) = 2^0 = 1 and
qToMagnitude(1) = (0.5^1 + 1) / 5 = 0.3, not 0.2: the round trip fails
because qToMagnitude computes pow(0.5, q) where inverting 2^lerp(-1,4,m)
requires log2(q). -/
theorem qToMagnitude_not_inverse :
    qToMagnitude (magnitudeToQ (1/5)) = 3/10 ∧ qToMagnitude (magnitudeToQ (1/5)) ≠ 1/5 := by
  have h1 : INTERPOLATE MIN_Q_POW MAX_Q_POW (1/5) = 0 := by
    unfold INTERPOLATE MIN_Q_POW MAX_Q_POW
    norm_num
  have h2 : magnitudeToQ (1/5) = 1 := by
    unfold magnitudeToQ
    rw [h1, Real.rpow_zero]
  have h3 : qToMagnitude 1 = 3/10 := by
    unfold qToMagnitude MIN_Q_POW MAX_Q_POW
    rw [Real.rpow_one]
    norm_num
  rw [h2, h3]
  norm_num

/-- C2 counterexample: quickertanh is not bounded: already quickertanh 13 is
above 1, and for every proposed bound B some input exceeds it (quickertanh
equals x(15+x^2)/(15+6x^2), asymptotic to x/6), so the claimed boundedness
of both approximations fails for quickertanh. -/
theorem quickertanh_not_bounded :
    1 < quickertanh 13 ∧ ¬ ∃ B : ℚ, ∀ x : ℚ, |quickertanh x| ≤ B := by
  constructor
  · norm_num [quickertanh]
  · rintro ⟨B, hB⟩
    have hx : (0:ℚ) ≤ 6 * (|B| + 1) := by positivity
    have h1 := quickertanh_lower (6 * (|B| + 1)) hx
    have h2 := hB (6 * (|B| + 1))
    have h4 : quickertanh (6 * (|B| + 1)) ≤ |quickertanh (6 * (|B| + 1))| :=
      le_abs_self _
    have h5 : B ≤ |B| := le_abs_self B
    have h3 : 6 * (|B| + 1) / 6 = |B| + 1 := by ring
    rw [h3] at h1
    linarith

/-- C2 (amended): quicktanh's output magnitude is bounded (by 2) for every
input, but quickertanh's is not: for every bound B there is a nonnegative
input where quickertanh exceeds B, so the boundedness and asymptote claim
holds only for quicktanh. -/
theorem tanh_bounded_amended :
    (∀ x : ℚ, |quicktanh x| ≤ 2) ∧ (∀ B : ℚ, ∃ x : ℚ, 0 ≤ x ∧ B < quickertanh x) := by
  refine ⟨quicktanh_abs_le_two, fun B => ⟨6 * (|B| + 1), by positivity, ?_⟩⟩
  have h1 := quickertanh_lower (6 * (|B| + 1)) (by positivity)
  have h3 : 6 * (|B| + 1) / 6 = |B| + 1 := by ring
  rw [h3] at h1
  have h5 := le_abs_self B
  linarith

/-- C3 counterexample: with minimum 1, maximum 2, width 3 and pointer x = 1,
the widget requests index 1 (the code uses maximum + 1 and ignores the
minimum), while the spec formula pointerX * (maximum - minimum + 1) / width
gives index 0. -/
theorem textSelector_formula_cex :
    mouseEventIndex 1 2 3 = 1 ∧ specIndex 1 1 2 3 = 0 ∧ (1 : Int) ≠ 0 :=
  ⟨by norm_num [mouseEventIndex, cppTrunc], by norm_num [specIndex, cppTrunc], by norm_num⟩

/-- C3 (amended): on every pointer interaction the widget computes
index = pointerX * (maximum + 1) / widgetWidth (truncated to int) and
requests a value update with that index; the slider minimum is not read,
so this agrees with the spec formula exactly when minimum = 0. -/
theorem textSelector_index_amended (x maximum width : ℚ) :
    mouseEventIndex x maximum width = specIndex x 0 maximum width := by
  simp [mouseEventIndex, specIndex]

/-- C4: with lo ≤ hi, clamp returns a value in [lo, hi], equal to the input
when it is already in range and otherwise equal to the nearer bound, and the
scalar and SSE2 backends agree on all (finite) inputs. -/
theorem clamp_in_range (value lo hi : ℚ) (h : lo ≤ hi) :
    lo ≤ clampScalar value lo hi ∧ clampScalar value lo hi ≤ hi ∧
    (lo ≤ value → value ≤ hi → clampScalar value lo hi = value) ∧
    (value < lo → clampScalar value lo hi = lo) ∧
    (hi < value → clampScalar value lo hi = hi) ∧
    clampScalar value lo hi = clampSSE2 value lo hi := by
  unfold clampScalar clampSSE2
  refine ⟨le_min h (le_max_right _ _), min_le_left _ _, ?_, ?_, ?_, min_comm _ _⟩
  · intro h1 h2
    rw [max_eq_left h1, min_eq_right h2]
  · intro h1
    rw [max_eq_right h1.le, min_eq_right h]
  · intro h1
    rw [max_eq_left (h.trans h1.le), min_eq_left h1.le]

/-- C4 witness: clamp at the concrete input 5 with range [1, 3] yields the
upper bound 3. -/
theorem clamp_in_range_witness :
    (1 : ℚ) ≤ 3 ∧ clampScalar 5 1 3 = 3 :=
  ⟨by norm_num, (clamp_in_range 5 1 3 (by norm_num)).2.2.2.2.1 (by norm_num)⟩

/-- C5: isSilent is true exactly when every sample indexed below the given
length has absolute value at most EPSILON = 1e-16; length 0 is vacuously
silent whatever the buffer holds, and one loud sample forces false. -/
theorem isSilent_iff_below_epsilon (buffer : Nat → ℚ) (n : Nat) :
    (isSilent buffer n = true ↔ ∀ i, i < n → |buffer i| ≤ EPSILON) ∧
    isSilent buffer 0 = true ∧
    (∀ j, j < n → EPSILON < |buffer j| → isSilent buffer n = false) := by
  have hiff : isSilent buffer n = true ↔ ∀ i, i < n → |buffer i| ≤ EPSILON := by
    simp only [isSilent, List.all_eq_true, List.mem_range, closeToZero,
      Bool.and_eq_true, decide_eq_true_eq, ge_iff_le, abs_le]
    constructor
    · intro h i hi
      exact ⟨(h i hi).2, (h i hi).1⟩
    · intro h i hi
      exact ⟨(h i hi).2, (h i hi).1⟩
  refine ⟨hiff, by simp [isSilent], fun j hj hgt => ?_⟩
  cases hb : isSilent buffer n with
  | false => rfl
  | true => exact absurd (hiff.mp hb j hj) (not_le.mpr hgt)

/-- C6: the MIDI round trip is exact over the reals: for every frequency in
the audio band [20, 20000] Hz, midiNoteToFrequency(frequencyToMidiNote(f))
returns f (so the float version is within any relative error bound up to
rounding). -/
theorem midi_frequency_roundtrip (f : ℝ) (h1 : 20 ≤ f) (h2 : f ≤ 20000) :
    midiNoteToFrequency (frequencyToMidiNote f) = f := by
  have hM : (0 : ℝ) < MIDI_0_FREQUENCY := by norm_num [MIDI_0_FREQUENCY]
  have hf : (0 : ℝ) < f := lt_of_lt_of_le (by norm_num) h1
  have hfM : (0 : ℝ) < f / MIDI_0_FREQUENCY := div_pos hf hM
  have hlog2 : Real.log 2 ≠ 0 := ne_of_gt (Real.log_pos (by norm_num))
  unfold midiNoteToFrequency midiCentsToFrequency centsToRatio frequencyToMidiNote
  have hexp : NOTES_PER_OCTAVE * Real.log (f / MIDI_0_FREQUENCY) / Real.log 2 *
      CENTS_PER_NOTE / CENTS_PER_OCTAVE = Real.log (f / MIDI_0_FREQUENCY) / Real.log 2 := by
    simp only [CENTS_PER_OCTAVE, NOTES_PER_OCTAVE, CENTS_PER_NOTE]
    rw [div_mul_eq_mul_div, div_div]
    rw [show (12 : ℝ) * Real.log (f / MIDI_0_FREQUENCY) * 100 =
        Real.log (f / MIDI_0_FREQUENCY) * 1200 by ring]
    rw [show Real.log 2 * ((12 : ℝ) * 100) = Real.log 2 * 1200 by norm_num]
    rw [mul_div_mul_right _ _ (by norm_num : (1200 : ℝ) ≠ 0)]
  rw [hexp, Real.rpow_def_of_pos (by norm_num : (0:ℝ) < 2)]
  rw [mul_comm (Real.log 2), div_mul_cancel₀ _ hlog2]
  rw [Real.exp_log hfM]
  rw [mul_comm, div_mul_cancel₀ _ (ne_of_gt hM)]

/-- C6 witness: the round trip at 440 Hz (concert A) returns 440 Hz. -/
theorem midi_frequency_roundtrip_witness :
    (20 : ℝ) ≤ 440 ∧ midiNoteToFrequency (frequencyToMidiNote 440) = 440 :=
  ⟨by norm_num, midi_frequency_roundtrip 440 (by norm_num) (by norm_num)⟩

/-- C7: both tanh approximations are exactly odd and vanish at zero:
quickertanh(-x) = -quickertanh(x), quicktanh(-x) = -quicktanh(x), and
both map 0 to 0. -/
theorem tanh_odd_symmetry (x : ℚ) :
    quickertanh (-x) = -quickertanh x ∧ quicktanh (-x) = -quicktanh x ∧
    quickertanh 0 = 0 ∧ quicktanh 0 = 0 :=
  ⟨quickertanh_odd x, quicktanh_odd x, by norm_num [quickertanh],
    by norm_num [quicktanh, qtNum]⟩

/-- C9 counterexample: iclamp(4, lo = 5, hi = 3) returns hi = 3, not lo = 5,
although 4 < 5 = lo: the code tests value > hi first, so the note that
iclamp returns lo for every value below lo fails for values between hi
and lo. -/
theorem iclamp_between_inverted_cex :
    (4 : Int) < 5 ∧ iclamp 4 5 3 = 3 ∧ ((3 : ℚ) ≠ 5) :=
  ⟨by norm_num, by norm_num [iclamp], by norm_num⟩

/-- C9 (amended): with inverted bounds lo > hi, the floating clamp returns hi
for every value in both backends (the min with hi is applied last); the
integer iclamp instead returns hi whenever value > hi (that test comes
first), and returns lo only for value < lo with value ≤ hi. -/
theorem clamp_inverted_bounds :
    (∀ value lo hi : ℚ, hi < lo → clampScalar value lo hi = hi ∧ clampSSE2 value lo hi = hi) ∧
    (∀ value lo hi : Int, value < lo → value ≤ hi → iclamp value lo hi = (lo : ℚ)) ∧
    (∀ value lo hi : Int, hi < value → iclamp value lo hi = (hi : ℚ)) := by
  refine ⟨fun value lo hi h => ?_, fun value lo hi h1 h2 => ?_, fun value lo hi h => ?_⟩
  · have hm : hi ≤ max value lo := le_trans h.le (le_max_right _ _)
    exact ⟨min_eq_left hm, min_eq_right hm⟩
  · simp only [iclamp, if_neg (not_lt.mpr h2), if_pos h1]
  · simp only [iclamp, if_pos h]

/-- C10: on the documented phase domain [-0.5, 0.5] both sine approximations
stay within unit amplitude; quickerSin attains exactly plus and minus 1 at
phase plus and minus 0.25, is 0 at phase 0 and at both endpoints, and
quickSin maps the extremes plus and minus 1 to themselves. -/
theorem quickSin_unit_bound (p : ℚ) (h1 : -(1/2) ≤ p) (h2 : p ≤ 1/2) :
    |quickerSin p| ≤ 1 ∧ |quickSin p| ≤ 1 ∧
    quickerSin (1/4) = 1 ∧ quickerSin (-(1/4)) = -1 ∧ quickerSin 0 = 0 ∧
    quickerSin (1/2) = 0 ∧ quickerSin (-(1/2)) = 0 ∧
    quickSin (1/4) = 1 ∧ quickSin (-(1/4)) = -1 := by
  have hp : |p| ≤ 1/2 := abs_le.mpr ⟨h1, h2⟩
  have hq : |quickerSin p| ≤ 1 := by
    have h8 : (0:ℚ) ≤ 8 - 16 * |p| := by linarith
    simp only [quickerSin]
    rw [abs_mul, abs_of_nonneg h8]
    nlinarith [abs_nonneg p, sq_nonneg (4 * |p| - 1)]
  have hqs : |quickSin p| ≤ 1 := by
    simp only [quickSin]
    rw [abs_mul, abs_of_nonneg (show (0:ℚ) ≤ 0.776 + 0.224 * |quickerSin p| by positivity)]
    nlinarith [abs_nonneg (quickerSin p), hq,
      mul_nonneg (sub_nonneg.mpr hq) (abs_nonneg (quickerSin p))]
  refine ⟨hq, hqs, ?_, ?_, ?_, ?_, ?_, ?_, ?_⟩
  · norm_num [quickerSin, abs_eq_max_neg, max_def]
  · norm_num [quickerSin, abs_eq_max_neg, max_def]
  · norm_num [quickerSin]
  · norm_num [quickerSin, abs_eq_max_neg, max_def]
  · norm_num [quickerSin, abs_eq_max_neg, max_def]
  · norm_num [quickSin, quickerSin, abs_eq_max_neg, max_def]
  · norm_num [quickSin, quickerSin, abs_eq_max_neg, max_def]

/-- C10 witness: at the concrete phase 0.25 the bound holds (and is attained). -/
theorem quickSin_unit_bound_witness :
    -(1/2 : ℚ) ≤ 1/4 ∧ |quickerSin (1/4)| ≤ 1 :=
  ⟨by norm_num, (quickSin_unit_bound (1/4) (by norm_num) (by norm_num)).1⟩
